import Mathlib

/-!
Verification of the Reservation Lifecycle and Consistency Core of the
hotel-booking-system repository.  The definitions below are shallow
embeddings of the source: the TypeScript reservation aggregate, value
objects, create-reservation use case and booking policy service
(part_001), the Go reservation entity, Postgres repository and value
objects (part_002), and the Go outbox publisher and rate calculator
service (part_005).

Modelling conventions.  JavaScript numbers and Go float64 money amounts
are exact rationals (the Go code stores amounts as big.Rat); Date /
time.Time values are integer timestamps (milliseconds for the
TypeScript code); generated identifiers (randomUUID,
ConfirmationNumber.generate) are passed in as explicit arguments;
methods that mutate `this` and may throw are embedded in state-passing
style `state → Option DomainError × state`, where a thrown exception
returns the unchanged state — faithful because in every embedded method
all throws precede the first mutation in the source.
-/

namespace HotelBooking

/-- Error taxonomy of the system (spec §7).  The TypeScript source throws
`ValidationException` (embedded as `validationError`) and
`DomainException` for state-machine violations (embedded as
`invalidStateTransition`, the spec's name for that error class); the Go
source returns `NewConcurrencyError` (`concurrencyConflict`) and
`NewBusinessRuleViolation` (`businessRuleViolation`). -/
inductive DomainError where
  | validationError (msg : String)
  | invalidStateTransition (msg : String)
  | concurrencyConflict (msg : String)
  | businessRuleViolation (msg : String)
deriving DecidableEq, Repr

/-- Currency enum from `money.vo.ts` (part_001). -/
inductive Currency where
  | usd
  | eur
  | gbp
deriving DecidableEq, Repr

/-- Money value object from `money.vo.ts` (part_001): an amount (JS
number, modelled as an exact rational) and a currency. -/
structure Money where
  amount : ℚ
  currency : Currency
deriving DecidableEq, Repr

/-- `Money.zero()` from `money.vo.ts`: `new Money(0, currency)` with the
default currency USD. -/
def Money.zero : Money := ⟨0, Currency.usd⟩

/-- `Money.isPositive()` from `money.vo.ts`. -/
def Money.isPositive (m : Money) : Bool := decide (m.amount > 0)

/-- DateRange value object from `date-range.vo.ts` (part_001):
check-in / check-out as Date values, modelled as integer millisecond
timestamps (`Date.prototype.getTime`). -/
structure DateRange where
  checkInDate : Int
  checkOutDate : Int
deriving DecidableEq, Repr

/-- `DateRange.overlapsWith(other)` from `date-range.vo.ts`:
`this.checkInDate < other.checkOutDate && this.checkOutDate > other.checkInDate`. -/
def DateRange.overlapsWith (a b : DateRange) : Bool :=
  decide (a.checkInDate < b.checkOutDate) && decide (a.checkOutDate > b.checkInDate)

/-- RoomBooking from the Reservations context (part_001): room type id,
quantity and optional special requests.  Owned by the reservation. -/
structure RoomBooking where
  roomTypeId : String
  quantity : Nat
  specialRequests : Option String
deriving DecidableEq, Repr

/-- GuestInfo as constructed by the create-reservation use case
(part_001): guest id, name, email and phone, all modelled as plain
strings. -/
structure GuestInfo where
  guestId : String
  guestName : String
  guestEmail : String
  guestPhone : String
deriving DecidableEq, Repr

/-- ReservationStatus enum (spec §3): Pending, Confirmed, Cancelled,
Completed. -/
inductive ReservationStatus where
  | pending
  | confirmed
  | cancelled
  | completed
deriving DecidableEq, Repr

/-- `status.isPending()` as used by the TypeScript aggregate. -/
def ReservationStatus.isPending : ReservationStatus → Bool
  | .pending => true
  | _ => false

/-- `status.isConfirmed()` as used by the TypeScript aggregate. -/
def ReservationStatus.isConfirmed : ReservationStatus → Bool
  | .confirmed => true
  | _ => false

/-- `status.isCancelled()` as used by the TypeScript aggregate. -/
def ReservationStatus.isCancelled : ReservationStatus → Bool
  | .cancelled => true
  | _ => false

/-- `status.isCompleted()` as used by the TypeScript aggregate. -/
def ReservationStatus.isCompleted : ReservationStatus → Bool
  | .completed => true
  | _ => false

/-- Domain events emitted by the TypeScript reservation aggregate
(part_001): ReservationCreatedEvent, ReservationConfirmedEvent,
ReservationCancelledEvent and ReservationTotalCalculatedEvent, each
carrying the constructor arguments the aggregate passes. -/
inductive DomainEvent where
  | reservationCreated (reservationId guestId : String)
      (dateRange : DateRange) (roomBookings : List RoomBooking)
  | reservationConfirmed (reservationId confirmationNumber paymentReference : String)
  | reservationCancelled (reservationId reason : String)
      (dateRange : DateRange) (roomBookings : List RoomBooking)
  | reservationTotalCalculated (reservationId : String) (totalAmount : Money)
deriving DecidableEq, Repr

/-- The ReservationAggregate root from `reservation.aggregate.ts`
(part_001).  `pendingEvents` is the uncommitted-event list maintained by
the AggregateRoot base (`addDomainEvent` appends, as the shared Go
`Entity.AddEvent` in part_005 also does). -/
structure ReservationAggregate where
  id : String
  guestInfo : GuestInfo
  dateRange : DateRange
  roomBookings : List RoomBooking
  status : ReservationStatus
  totalAmount : Money
  confirmationNumber : Option String
  pendingEvents : List DomainEvent
deriving DecidableEq, Repr

/-- `ReservationAggregate.create(guestInfo, dateRange, roomBookings)`
(part_001 lines 22-46): constructs the aggregate in PENDING status with
`Money.zero()` total and records a single ReservationCreatedEvent.
`freshId` stands for the `ReservationId.generate()` result. -/
def ReservationAggregate.create (freshId : String) (guestInfo : GuestInfo)
    (dateRange : DateRange) (roomBookings : List RoomBooking) : ReservationAggregate :=
  { id := freshId
    guestInfo := guestInfo
    dateRange := dateRange
    roomBookings := roomBookings
    status := ReservationStatus.pending
    totalAmount := Money.zero
    confirmationNumber := none
    pendingEvents :=
      [DomainEvent.reservationCreated freshId guestInfo.guestId dateRange roomBookings] }

/-- `ReservationAggregate.confirm(paymentReference)` (part_001 lines
48-69).  `confirmationNo` stands for the `ConfirmationNumber.generate()`
result.  The first guard is `!this.status.isPending()`; the second is
the JS falsiness check `!paymentReference`, which on the underlying
payment-reference string holds exactly when the string is empty.  Both
`DomainException` throws happen before any field is assigned, so a
failure returns the aggregate unchanged. -/
def ReservationAggregate.confirm (confirmationNo paymentReference : String)
    (r : ReservationAggregate) : Option DomainError × ReservationAggregate :=
  if r.status.isPending = false then
    (some (DomainError.invalidStateTransition "Only pending reservations can be confirmed"), r)
  else if paymentReference = "" then
    (some (DomainError.invalidStateTransition "Payment reference required for confirmation"), r)
  else
    (none,
      { r with
        status := ReservationStatus.confirmed
        confirmationNumber := some confirmationNo
        pendingEvents := r.pendingEvents ++
          [DomainEvent.reservationConfirmed r.id confirmationNo paymentReference] })

/-- `ReservationAggregate.cancel(reason)` (part_001 lines 71-92):
rejects already-cancelled and completed reservations, otherwise sets
CANCELLED and records a ReservationCancelledEvent carrying the date
range and the room bookings. -/
def ReservationAggregate.cancel (reason : String)
    (r : ReservationAggregate) : Option DomainError × ReservationAggregate :=
  if r.status.isCancelled then
    (some (DomainError.invalidStateTransition "Reservation is already cancelled"), r)
  else if r.status.isCompleted then
    (some (DomainError.invalidStateTransition "Cannot cancel completed reservations"), r)
  else
    (none,
      { r with
        status := ReservationStatus.cancelled
        pendingEvents := r.pendingEvents ++
          [DomainEvent.reservationCancelled r.id reason r.dateRange r.roomBookings] })

/-- `ReservationAggregate.calculateTotal(rateCalculator)` (part_001
lines 94-103): unconditionally stores the calculator's result and
records a ReservationTotalCalculatedEvent.  The collaborating
RateCalculatorService is passed as a function. -/
def ReservationAggregate.calculateTotal
    (rateCalculator : DateRange → List RoomBooking → Money)
    (r : ReservationAggregate) : ReservationAggregate :=
  let total := rateCalculator r.dateRange r.roomBookings
  { r with
    totalAmount := total
    pendingEvents := r.pendingEvents ++
      [DomainEvent.reservationTotalCalculated r.id total] }

/-- `ReservationAggregate.canBeModified()` (part_001 lines 106-108). -/
def ReservationAggregate.canBeModified (r : ReservationAggregate) : Bool :=
  r.status.isPending || r.status.isConfirmed

/-- `ReservationAggregate.isWithinCancellationPeriod()` (part_001 lines
114-119): `(checkIn.getTime() - now.getTime()) / (1000 * 60 * 60) >= 24`.
The method performs no assignment in the source, so it is embedded as a
pure Bool-valued query of the aggregate and the current time. -/
def ReservationAggregate.isWithinCancellationPeriod (now : Int)
    (r : ReservationAggregate) : Bool :=
  let hoursDifference : ℚ := ((r.dateRange.checkInDate - now : Int) : ℚ) / (1000 * 60 * 60)
  decide (hoursDifference ≥ 24)

/-! ### Create-reservation use case (part_001, lines 317-449) -/

/-- RoomRequest DTO from the create-reservation use case (part_001). -/
structure RoomRequest where
  roomTypeId : String
  quantity : Nat
  specialRequests : Option String
deriving DecidableEq, Repr

/-- CreateReservationRequest DTO (part_001).  Absent / undefined string
fields are modelled as the empty string, matching the JS falsiness
checks in `validateRequest`. -/
structure CreateReservationRequest where
  guestId : String
  guestName : String
  guestEmail : String
  guestPhone : String
  checkInDate : String
  checkOutDate : String
  roomRequests : List RoomRequest
deriving DecidableEq, Repr

/-- `CreateReservationUseCase.validateRequest` (part_001 lines 406-418):
three guard clauses throwing `ValidationException`; the JS falsiness
tests on strings hold exactly for the empty string, and
`!request.roomRequests || request.roomRequests.length === 0` holds
exactly for the empty list. -/
def validateRequest (request : CreateReservationRequest) : Option DomainError :=
  if request.guestId = "" ∨ request.guestName = "" ∨ request.guestEmail = "" then
    some (DomainError.validationError "Guest information is required")
  else if request.checkInDate = "" ∨ request.checkOutDate = "" then
    some (DomainError.validationError "Check-in and check-out dates are required")
  else if request.roomRequests = [] then
    some (DomainError.validationError "At least one room must be requested")
  else
    none

/-- Modelled from the spec: the `RoomBooking` class constructor invoked
by the use case (`new RoomBooking(new RoomTypeId(req.roomTypeId),
req.quantity, req.specialRequests)`, part_001 line 344) is referenced
but its definition is not under `src/`.  The spec states that
roomBookings with zero quantity are malformed and rejected with
`ValidationError`, so the constructor is modelled as that validation. -/
def mkRoomBooking (roomTypeId : String) (quantity : Nat)
    (specialRequests : Option String) : Except DomainError RoomBooking :=
  if quantity = 0 then
    Except.error (DomainError.validationError "Room booking quantity must be positive")
  else
    Except.ok ⟨roomTypeId, quantity, specialRequests⟩

/-- `request.roomRequests.map(req => new RoomBooking(...))` (part_001
lines 343-349): JS `map` applies the constructor left to right and the
first thrown exception propagates. -/
def buildRoomBookings : List RoomRequest → Except DomainError (List RoomBooking)
  | [] => Except.ok []
  | rr :: rest =>
    match mkRoomBooking rr.roomTypeId rr.quantity rr.specialRequests with
    | Except.error e => Except.error e
    | Except.ok rb =>
      match buildRoomBookings rest with
      | Except.error e => Except.error e
      | Except.ok rbs => Except.ok (rb :: rbs)

/-- Steps 1-2 of `CreateReservationUseCase.execute` (part_001 lines
326-349): input validation followed by domain-object construction for
the room bookings; the first failure propagates to the caller. -/
def prepareReservationInputs (request : CreateReservationRequest) :
    Except DomainError (List RoomBooking) :=
  match validateRequest request with
  | some e => Except.error e
  | none => buildRoomBookings request.roomRequests

/-! ### Booking policy service (part_001, lines 248-308) -/

/-- `PolicyValidationResult{isValid, reason}` (spec §4.2); a successful
result carries an empty reason. -/
structure PolicyValidationResult where
  isValid : Bool
  reason : String
deriving DecidableEq, Repr

/-- `PolicyValidationResult.success()`. -/
def PolicyValidationResult.success : PolicyValidationResult := ⟨true, ""⟩

/-- `PolicyValidationResult.failed(reason)`. -/
def PolicyValidationResult.failed (reason : String) : PolicyValidationResult :=
  ⟨false, reason⟩

/-- `BookingPolicyService` (part_001): the three injected policies,
each embedded as a function returning a PolicyValidationResult.  The
blackout-date policy is async in the source; its awaited result is
embedded as a plain result. -/
structure BookingPolicyService where
  minimumStayPolicy : DateRange → List RoomBooking → PolicyValidationResult
  advanceBookingPolicy : DateRange → PolicyValidationResult
  blackoutDatePolicy : DateRange → PolicyValidationResult

/-- The `results` array assembled by `validateBooking` (part_001 lines
260-269), in push order: minimum-stay, advance-booking, blackout-dates.
The guestInfo argument is accepted but, as in the source, not passed to
any of the three policies. -/
def BookingPolicyService.policyResults (svc : BookingPolicyService)
    (dateRange : DateRange) (roomBookings : List RoomBooking) :
    List PolicyValidationResult :=
  [svc.minimumStayPolicy dateRange roomBookings,
   svc.advanceBookingPolicy dateRange,
   svc.blackoutDatePolicy dateRange]

/-- `BookingPolicyService.validateBooking(dateRange, roomBookings,
guestInfo)` (part_001 lines 255-280): collects all three policy
results, filters the failures, and combines their reasons with
`join('; ')` when any failed. -/
def BookingPolicyService.validateBooking (svc : BookingPolicyService)
    (dateRange : DateRange) (roomBookings : List RoomBooking)
    (_guestInfo : GuestInfo) : PolicyValidationResult :=
  let results := svc.policyResults dateRange roomBookings
  let failedResults := results.filter fun r => !r.isValid
  if failedResults.length > 0 then
    PolicyValidationResult.failed
      (String.intercalate "; " (failedResults.map PolicyValidationResult.reason))
  else
    PolicyValidationResult.success

/-! ### Go value objects (part_002 `valueobject`, part_005 enhanced Money) -/

/-- Go `valueobject.Money` (part_002 / part_005): an exact `big.Rat`
amount and a currency code string.  The Go zero value `Money{}` has an
empty currency (and a nil amount that is never read in the embedded
paths because `Add` checks the currency first); it is modelled with
amount 0. -/
structure GoMoney where
  amount : ℚ
  currency : String
deriving DecidableEq, Repr

/-- The Go zero value `valueobject.Money{}`. -/
def GoMoney.empty : GoMoney := ⟨0, ""⟩

/-- `NewMoney(amountCents, currency)` (part_005 lines 280-292):
`big.NewRat(amountCents, 100)`.  The currency-validity check is elided:
every currency used in the embedded paths is the valid "USD". -/
def GoMoney.newMoney (amountCents : Int) (currency : String) : GoMoney :=
  ⟨(amountCents : ℚ) / 100, currency⟩

/-- `Money.Add(other)` (part_005 lines 295-307): fails on a currency
mismatch, otherwise adds the rational amounts. -/
def GoMoney.add (m other : GoMoney) : Except String GoMoney :=
  if m.currency ≠ other.currency then
    Except.error ("cannot add different currencies: " ++ m.currency ++ " and " ++ other.currency)
  else
    Except.ok ⟨m.amount + other.amount, m.currency⟩

/-- `Money.Multiply(factor)` (part_005 lines 329-338).  The float64
factor is converted in the source by `big.NewRat(int64(factor*10000),
10000)`; every factor used by the rate calculator (0.8, 0.9, 1.0, 1.1,
1.12, 1.2, 1.3, 1.5, 2.0, 1 + n*0.1 for small n) converts under that
expression to exactly the decimal rational it denotes, so the factor is
embedded as that rational. -/
def GoMoney.multiply (m : GoMoney) (factor : ℚ) : GoMoney :=
  ⟨m.amount * factor, m.currency⟩

/-- `Money.ToFloat()` (part_002 lines 866-869): the amount as a number. -/
def GoMoney.toFloat (m : GoMoney) : ℚ := m.amount

/-- Go `valueobject.DateRange` (part_002 lines 792-795), check-in and
check-out as integer timestamps. -/
structure GoDateRange where
  checkIn : Int
  checkOut : Int
deriving DecidableEq, Repr

/-- Go `valueobject.RoomBooking` as used by `NewRoomBooking(roomTypeID,
quantity)` (part_002). -/
structure GoRoomBooking where
  roomTypeID : String
  quantity : Nat
deriving DecidableEq, Repr

/-- Go `valueobject.BookingStatus` constants (part_002 / part_005). -/
inductive GoBookingStatus where
  | pending
  | confirmed
  | cancelled
  | completed
deriving DecidableEq, Repr

/-- The string stored in the `status` column for a booking status
(`string(reservation.Status())` in `entityToModel`, part_002 line 1343). -/
def GoBookingStatus.toColumn : GoBookingStatus → String
  | .pending => "pending"
  | .confirmed => "confirmed"
  | .cancelled => "cancelled"
  | .completed => "completed"

/-! ### Go reservation entity and Postgres repository (part_002) -/

/-- Go `entity.Reservation` (part_002 lines 661-674) with the fields the
repository persists; `version` is the optimistic-locking token. -/
structure GoReservation where
  id : String
  guestID : String
  dateRange : GoDateRange
  roomBooking : GoRoomBooking
  totalPrice : GoMoney
  status : GoBookingStatus
  createdAt : Int
  updatedAt : Int
  version : Int
deriving DecidableEq, Repr

/-- `Reservation.IncrementVersion()` (part_002 lines 738-742):
increments the version and touches `updatedAt` (the `time.Now()` result
is passed in as `now`). -/
def GoReservation.incrementVersion (now : Int) (r : GoReservation) : GoReservation :=
  { r with version := r.version + 1, updatedAt := now }

/-- `ReservationModel` database row (part_002 lines 1188-1200). -/
structure ReservationModel where
  id : String
  guestID : String
  roomTypeID : String
  checkIn : Int
  checkOut : Int
  totalAmount : ℚ
  currency : String
  status : String
  createdAt : Int
  updatedAt : Int
  version : Int
deriving DecidableEq, Repr

/-- `entityToModel` (part_002 lines 1334-1347).  The Version column is
carried over from the entity: the snippets that add versioning are
additive ("ADD this field" / "ADD these methods"), and `Update`'s
`model.Version-1` condition presupposes that the model carries the
entity's version. -/
def entityToModel (r : GoReservation) : ReservationModel :=
  { id := r.id
    guestID := r.guestID
    roomTypeID := r.roomBooking.roomTypeID
    checkIn := r.dateRange.checkIn
    checkOut := r.dateRange.checkOut
    totalAmount := r.totalPrice.toFloat
    currency := r.totalPrice.currency
    status := r.status.toColumn
    createdAt := r.createdAt
    updatedAt := r.updatedAt
    version := r.version }

/-- The `WHERE id = ? AND version = ?` condition of the optimistic
update (part_002 line 1249), with `model.Version-1` as the version
argument. -/
def updateMatches (model : ReservationModel) (row : ReservationModel) : Bool :=
  row.id == model.id && row.version == model.version - 1

/-- `PostgresReservationRepository.Update` (part_002 lines 1243-1261):
the write is conditioned on `id = model.ID AND version = model.Version-1`;
zero affected rows yields `NewConcurrencyError` and leaves the stored
state untouched, otherwise every matching row is overwritten with the
model (`Updates(&model)`).  The database table is embedded as a list of
rows and the result is `(thrown error?, table after the call)`. -/
def PostgresReservationRepository.update (db : List ReservationModel)
    (reservation : GoReservation) : Option DomainError × List ReservationModel :=
  let model := entityToModel reservation
  let affected := db.filter (updateMatches model)
  if affected.length = 0 then
    (some (DomainError.concurrencyConflict "reservation was modified by another process"), db)
  else
    (none, db.map fun row => if updateMatches model row then model else row)

/-! ### Outbox publisher (part_005, lines 1208-1315) -/

/-- `OutboxEvent` row (part_005 lines 1209-1217). -/
structure OutboxEvent where
  id : String
  eventType : String
  eventData : String
  aggregateID : String
  createdAt : Int
  processedAt : Option Int
  retries : Nat
deriving DecidableEq, Repr

/-- The polling condition `processed_at IS NULL AND retries < 3`
(part_005 line 1274). -/
def pollFilter (e : OutboxEvent) : Bool :=
  e.processedAt.isNone && decide (e.retries < 3)

/-- The batch fetched by `ProcessOutboxEvents` (part_005 lines
1273-1277): unprocessed rows below the retry ceiling, ordered by
`created_at ASC`, limited to 100. -/
def pollBatch (db : List OutboxEvent) : List OutboxEvent :=
  ((db.filter pollFilter).insertionSort fun a b => a.createdAt ≤ b.createdAt).take 100

/-- One iteration of the dispatch loop (part_005 lines 1281-1292): on a
`processEvent` failure the row's retry count is set to
`outboxEvent.Retries+1` (the fetched copy's count plus one); on success
`processed_at` is set to the current time.  `deliver` abstracts
`processEvent` (type-registry lookup, deserialisation and
`eventBus.Publish`, which succeeds only when every subscribed handler
succeeds); `now` is the `time.Now()` result. -/
def applyOutcome (now : Int) (deliver : OutboxEvent → Bool)
    (db : List OutboxEvent) (e : OutboxEvent) : List OutboxEvent :=
  if deliver e = false then
    db.map fun row => if row.id == e.id then { row with retries := e.retries + 1 } else row
  else
    db.map fun row => if row.id == e.id then { row with processedAt := some now } else row

/-- `OutboxPublisher.ProcessOutboxEvents` (part_005 lines 1268-1295):
fetch the batch, then attempt each row in order, updating the table per
outcome. -/
def processOutboxEvents (now : Int) (deliver : OutboxEvent → Bool)
    (db : List OutboxEvent) : List OutboxEvent :=
  (pollBatch db).foldl (applyOutcome now deliver) db

/-- The effect of one dispatch iteration for batch row `e` on a single
table row: `applyOutcome` written as a per-row function. -/
def applyOutcomeRow (now : Int) (deliver : OutboxEvent → Bool)
    (e row : OutboxEvent) : OutboxEvent :=
  if row.id == e.id then
    (if deliver e = false then { row with retries := e.retries + 1 }
     else { row with processedAt := some now })
  else row

/-! ### Rate calculator service (part_005, lines 751-955)

The cache and the metrics collector consulted by `CalculateRate` are
external collaborators (their hits only short-circuit recomputation of
the same value) and are elided.  A `time.Time` day is embedded as an
integer day index; the calendar facts the source reads off a day —
`date.Month()` and `date.Weekday()` (Sunday = 0) — are supplied by a
`Calendar` oracle, and `AddDate(0, 0, 1)` is `+ 1` on day indices. -/

/-- Calendar oracle: month and weekday of a day index. -/
structure Calendar where
  month : Int → Nat
  weekday : Int → Nat

/-- The `seasonalMultipliers` map (part_005 lines 764-769). -/
def seasonalMultipliers : List (String × ℚ) :=
  [("low", 4/5), ("medium", 1), ("high", 3/2), ("peak", 2)]

/-- The `dayOfWeekMultipliers` map (part_005 lines 770-778), keyed by Go
weekday number (Sunday = 0). -/
def dayOfWeekMultipliers : List (Nat × ℚ) :=
  [(1, 9/10), (2, 9/10), (3, 9/10), (4, 9/10), (5, 11/10), (6, 13/10), (0, 6/5)]

/-- `getSeason` (part_005 lines 924-939): low/medium/high banding of the
month (the "peak" map entry is never produced). -/
def getSeason (month : Nat) : String :=
  if month ≥ 12 ∨ month ≤ 2 then "low"
  else if month ≥ 3 ∧ month ≤ 5 then "medium"
  else if month ≥ 6 ∧ month ≤ 8 then "high"
  else if month ≥ 9 ∧ month ≤ 11 then "medium"
  else "medium"

/-- `calculateDailyRate` (part_005 lines 890-915): seasonal multiplier,
then day-of-week multiplier, then a 10%-per-extra-guest surcharge when
the occupancy exceeds 2; each map lookup falls through unchanged when
the key is absent, as in the source. -/
def calculateDailyRate (cal : Calendar) (baseRate : GoMoney) (date : Int)
    (guestCount : Nat) : GoMoney :=
  let rate := baseRate
  let rate :=
    match seasonalMultipliers.lookup (getSeason (cal.month date)) with
    | some multiplier => rate.multiply multiplier
    | none => rate
  let rate :=
    match dayOfWeekMultipliers.lookup (cal.weekday date) with
    | some multiplier => rate.multiply multiplier
    | none => rate
  if guestCount > 2 then
    rate.multiply (1 + ((guestCount - 2 : ℕ) : ℚ) * (1/10))
  else
    rate

/-- `applyTaxes` (part_005 lines 918-921): a flat 12% tax. -/
def applyTaxes (amount : GoMoney) : GoMoney :=
  amount.multiply (1 + 12/100)

/-- `getBaseRate` (part_005 lines 942-950): base-rate table lookup with
a default of `NewMoney(10000, USD)` when the room type is absent. -/
def getBaseRate (baseRates : List (String × GoMoney)) (roomTypeID : String) : GoMoney :=
  match baseRates.lookup roomTypeID with
  | some rate => rate
  | none => GoMoney.newMoney 10000 "USD"

/-- The daily loop of `CalculateRate` (part_005 lines 815-828),
recursing on the number of remaining days: add each day's rate into the
accumulator, wrapping an `Add` failure as the source's
`fmt.Errorf("failed to add daily rate: %w", err)`. -/
def sumDailyRates (cal : Calendar) (baseRate : GoMoney) (guestCount : Nat) :
    Nat → Int → GoMoney → Except String GoMoney
  | 0, _, totalAmount => Except.ok totalAmount
  | Nat.succ n, currentDate, totalAmount =>
    let dailyRate := calculateDailyRate cal baseRate currentDate guestCount
    match totalAmount.add dailyRate with
    | Except.error e => Except.error ("failed to add daily rate: " ++ e)
    | Except.ok totalAmount' => sumDailyRates cal baseRate guestCount n (currentDate + 1) totalAmount'

/-- `RateCalculatorService.CalculateRate` (part_005 lines 782-839):
base-rate lookup, zero-rate guard, the daily summation loop started
from the Go zero value `valueobject.Money{}` (empty currency), then
taxes on the total. -/
def calculateRate (cal : Calendar) (baseRates : List (String × GoMoney))
    (roomTypeID : String) (dateRange : GoDateRange) (guestCount : Nat) :
    Except String GoMoney :=
  let baseRate := getBaseRate baseRates roomTypeID
  if baseRate.toFloat = 0 then
    Except.error ("no base rate found for room type " ++ roomTypeID)
  else
    match sumDailyRates cal baseRate guestCount
        (dateRange.checkOut - dateRange.checkIn).toNat dateRange.checkIn GoMoney.empty with
    | Except.error e => Except.error e
    | Except.ok totalAmount => Except.ok (applyTaxes totalAmount)

/-- `CalculateRate` with the accumulator slip repaired: the summation
starts from a zero amount in the base rate's own currency instead of
the zero-value `Money{}`.  Used to show that, apart from that slip, the
source implements the spec's reference computation. -/
def calculateRateRepaired (cal : Calendar) (baseRates : List (String × GoMoney))
    (roomTypeID : String) (dateRange : GoDateRange) (guestCount : Nat) :
    Except String GoMoney :=
  let baseRate := getBaseRate baseRates roomTypeID
  if baseRate.toFloat = 0 then
    Except.error ("no base rate found for room type " ++ roomTypeID)
  else
    match sumDailyRates cal baseRate guestCount
        (dateRange.checkOut - dateRange.checkIn).toNat dateRange.checkIn
        ⟨0, baseRate.currency⟩ with
    | Except.error e => Except.error e
    | Except.ok totalAmount => Except.ok (applyTaxes totalAmount)

/-! ### Reference computation for the rate algorithm (spec §4.3)

These definitions transcribe the spec's words — "iterate every calendar
day in [checkIn, checkOut); for each day, start from a per-room-type
base rate, apply a seasonal multiplier (derived from the month:
low/medium/high banding), then a day-of-week multiplier, then an
extra-guest surcharge if occupancy exceeds 2; sum all daily amounts;
apply a flat tax rate on the total" — for comparison against the
embedded source. -/

/-- Seasonal multiplier of a month under the low/medium/high banding. -/
def specSeasonalMultiplier (month : Nat) : ℚ :=
  if month ≥ 12 ∨ month ≤ 2 then 4/5
  else if month ≥ 3 ∧ month ≤ 5 then 1
  else if month ≥ 6 ∧ month ≤ 8 then 3/2
  else if month ≥ 9 ∧ month ≤ 11 then 1
  else 1

/-- Day-of-week multiplier (weekend premium), Go weekday numbering. -/
def specDayOfWeekMultiplier (weekday : Nat) : ℚ :=
  if weekday = 0 then 6/5
  else if weekday = 5 then 11/10
  else if weekday = 6 then 13/10
  else 9/10

/-- Extra-guest surcharge factor when occupancy exceeds 2. -/
def specGuestFactor (guestCount : Nat) : ℚ :=
  if guestCount > 2 then 1 + ((guestCount - 2 : ℕ) : ℚ) * (1/10) else 1

/-- One calendar day's amount under the spec's reference computation. -/
def specDailyAmount (cal : Calendar) (baseAmount : ℚ) (guestCount : Nat)
    (date : Int) : ℚ :=
  baseAmount * specSeasonalMultiplier (cal.month date)
    * specDayOfWeekMultiplier (cal.weekday date) * specGuestFactor guestCount

/-- The reference total: the sum over every day in [checkIn, checkOut)
with a flat 12% tax applied to the sum. -/
def specTotal (cal : Calendar) (baseAmount : ℚ) (guestCount : Nat)
    (checkIn checkOut : Int) : ℚ :=
  (((List.range (checkOut - checkIn).toNat).map
      fun i : Nat => specDailyAmount cal baseAmount guestCount (checkIn + (i : Int))).sum)
    * (1 + 12/100)

/-! ### Concrete data used by witnesses and counterexamples -/

/-- Sample guest, mirroring the aggregate test fixture (part_001
lines 1107-1112). -/
def sampleGuest : GuestInfo :=
  ⟨"guest-123", "John Doe", "john@example.com", "+1234567890"⟩

/-- Sample date range (millisecond timestamps of 2024-12-01 and
2024-12-03, as in the test fixture). -/
def sampleDateRange : DateRange := ⟨1733011200000, 1733184000000⟩

/-- Sample room-booking list (one deluxe-king room). -/
def sampleBookings : List RoomBooking := [⟨"deluxe-king", 1, none⟩]

/-- A freshly created sample reservation. -/
def sampleReservation : ReservationAggregate :=
  ReservationAggregate.create "res-1" sampleGuest sampleDateRange sampleBookings

/-- The sample reservation after a successful confirmation — a concrete
non-Pending aggregate. -/
def sampleConfirmedReservation : ReservationAggregate :=
  (sampleReservation.confirm "CN-1" "pay_1").2

/-- A concrete rate-calculator collaborator returning a fixed total. -/
def sampleRateCalculator : DateRange → List RoomBooking → Money :=
  fun _ _ => ⟨200, Currency.usd⟩

/-- A concrete create-reservation request whose single room request has
quantity zero. -/
def sampleZeroQuantityRequest : CreateReservationRequest :=
  { guestId := "guest-123"
    guestName := "John Doe"
    guestEmail := "john@example.com"
    guestPhone := "+1234567890"
    checkInDate := "2024-12-01T15:00:00Z"
    checkOutDate := "2024-12-03T11:00:00Z"
    roomRequests := [⟨"deluxe-king", 0, none⟩] }

/-- A concrete policy service in which the minimum-stay and
blackout-date policies fail and the advance-booking policy passes. -/
def samplePolicyService : BookingPolicyService :=
  { minimumStayPolicy := fun _ _ => PolicyValidationResult.failed "Minimum stay of 2 nights required"
    advanceBookingPolicy := fun _ => PolicyValidationResult.success
    blackoutDatePolicy := fun _ => PolicyValidationResult.failed "Requested dates fall on blackout dates" }

/-- A concrete Go reservation as loaded from the store at version 3. -/
def sampleGoReservation : GoReservation :=
  { id := "res-42"
    guestID := "guest-123"
    dateRange := ⟨20000, 20003⟩
    roomBooking := ⟨"deluxe-king", 1⟩
    totalPrice := GoMoney.newMoney 30000 "USD"
    status := GoBookingStatus.pending
    createdAt := 100
    updatedAt := 100
    version := 3 }

/-- The stored row for `sampleGoReservation`, also at version 3. -/
def sampleStoredRow : ReservationModel := entityToModel sampleGoReservation

/-- A one-row reservation table holding `sampleStoredRow`. -/
def sampleReservationDb : List ReservationModel := [sampleStoredRow]

/-- An outbox row that has reached the retry ceiling of 3 while still
unprocessed. -/
def samplePoisonedRow : OutboxEvent :=
  ⟨"evt-1", "ReservationCancelled", "data-1", "res-42", 5, none, 3⟩

/-- An outbox table holding only the poisoned row. -/
def samplePoisonedDb : List OutboxEvent := [samplePoisonedRow]

/-- A two-row outbox table: one fresh unprocessed row and one poisoned
row. -/
def sampleOutboxDb : List OutboxEvent :=
  [⟨"evt-2", "ReservationConfirmed", "data-2", "res-7", 9, none, 0⟩, samplePoisonedRow]

/-- A calendar oracle on which every day falls in June (month 6) on a
Monday (weekday 1). -/
def sampleCalendar : Calendar := ⟨fun _ => 6, fun _ => 1⟩

/-- A base-rate table pricing the deluxe-king room type at 100.00 USD. -/
def sampleBaseRates : List (String × GoMoney) :=
  [("deluxe-king", GoMoney.newMoney 10000 "USD")]

/-! ## Theorems -/

/-- C10: DateRange overlap is symmetric — for every pair of DateRange
values `a` and `b`, `a.overlapsWith(b)` returns the same boolean as
`b.overlapsWith(a)`, both equal to
`a.checkIn < b.checkOut ∧ a.checkOut > b.checkIn`. -/
theorem overlapsWith_symm (a b : DateRange) :
    a.overlapsWith b = b.overlapsWith a ∧
    (a.overlapsWith b = true ↔
      (a.checkInDate < b.checkOutDate ∧ a.checkOutDate > b.checkInDate)) := by
  constructor
  · exact Bool.and_comm _ _
  · simp [DateRange.overlapsWith]

/-- C9: `isWithinCancellationPeriod()` returns true if and only if the
time from now until the check-in timestamp is at least 24 hours
(24 h = 24·1000·60·60 ms); the query is side-effect-free by
construction (the source method performs no assignment and the
embedding is a pure Bool-valued function of the aggregate and the
clock). -/
theorem isWithinCancellationPeriod_iff (now : Int) (r : ReservationAggregate) :
    r.isWithinCancellationPeriod now = true ↔
      r.dateRange.checkInDate - now ≥ 24 * (1000 * 60 * 60) := by
  unfold ReservationAggregate.isWithinCancellationPeriod
  rw [decide_eq_true_iff, ge_iff_le, le_div_iff₀ (by norm_num : (0:ℚ) < 1000 * 60 * 60)]
  norm_cast

/-- C8 (amended): `calculateTotal(rateCalculator)` is not guarded by the
reservation's status — for every reservation, in every status, it sets
totalAmount to the Rate Calculator's result, appends exactly one
ReservationTotalCalculated event, and leaves the status unchanged. -/
theorem calculateTotal_spec (rc : DateRange → List RoomBooking → Money)
    (r : ReservationAggregate) :
    (r.calculateTotal rc).totalAmount = rc r.dateRange r.roomBookings ∧
    (r.calculateTotal rc).pendingEvents = r.pendingEvents ++
      [DomainEvent.reservationTotalCalculated r.id (rc r.dateRange r.roomBookings)] ∧
    (r.calculateTotal rc).status = r.status :=
  ⟨rfl, rfl, rfl⟩

/-- C8 counterexample: on a concrete Confirmed (hence non-Pending)
reservation, `calculateTotal` does set the totalAmount and does emit a
new event, contradicting the claim that while not Pending it does
neither. -/
theorem calculateTotal_unguarded_counterexample :
    sampleConfirmedReservation.status ≠ ReservationStatus.pending ∧
    (sampleConfirmedReservation.calculateTotal sampleRateCalculator).totalAmount ≠
      sampleConfirmedReservation.totalAmount ∧
    (sampleConfirmedReservation.calculateTotal sampleRateCalculator).pendingEvents ≠
      sampleConfirmedReservation.pendingEvents :=
  ⟨by decide, by decide, by decide⟩

/-- C1: `confirm(paymentReference)` fails (always with
InvalidStateTransition) if and only if the status is not Pending or the
payment reference is empty; on failure the aggregate is unchanged (no
new events), and on success the status becomes Confirmed, the
confirmation number is set, and exactly one ReservationConfirmed event
is appended. -/
theorem confirm_spec (confNo payRef : String) (r : ReservationAggregate) :
    ((r.confirm confNo payRef).1.isSome = true ↔
      (r.status ≠ ReservationStatus.pending ∨ payRef = "")) ∧
    (∀ e, (r.confirm confNo payRef).1 = some e →
      (∃ msg, e = DomainError.invalidStateTransition msg) ∧
      (r.confirm confNo payRef).2 = r) ∧
    ((r.confirm confNo payRef).1 = none →
      (r.confirm confNo payRef).2.status = ReservationStatus.confirmed ∧
      (r.confirm confNo payRef).2.confirmationNumber = some confNo ∧
      (r.confirm confNo payRef).2.pendingEvents = r.pendingEvents ++
        [DomainEvent.reservationConfirmed r.id confNo payRef]) := by
  by_cases hp : payRef = "" <;> cases hst : r.status <;>
    simp [ReservationAggregate.confirm, ReservationStatus.isPending, hp, hst]

/-- C1 witness: confirming the fresh sample reservation with payment
reference "pay_1" succeeds and confirms it; confirming it with an empty
payment reference fails. -/
theorem confirm_spec_witness :
    (sampleReservation.confirm "CN-1" "pay_1").2.status = ReservationStatus.confirmed ∧
    (sampleReservation.confirm "CN-1" "").1.isSome = true :=
  ⟨((confirm_spec "CN-1" "pay_1" sampleReservation).2.2 (by decide)).1,
   (confirm_spec "CN-1" "" sampleReservation).1.mpr (Or.inr rfl)⟩

/-- C2: `cancel(reason)` fails (always with InvalidStateTransition) if
and only if the status is already Cancelled or Completed; on failure
the aggregate is unchanged, on success the status becomes Cancelled and
exactly one ReservationCancelled event carrying the dateRange and the
roomBookings is appended; and after a successful cancel a second cancel
attempt fails cleanly, leaving the state untouched. -/
theorem cancel_spec (reason : String) (r : ReservationAggregate) :
    ((r.cancel reason).1.isSome = true ↔
      (r.status = ReservationStatus.cancelled ∨ r.status = ReservationStatus.completed)) ∧
    (∀ e, (r.cancel reason).1 = some e →
      (∃ msg, e = DomainError.invalidStateTransition msg) ∧ (r.cancel reason).2 = r) ∧
    ((r.cancel reason).1 = none →
      (r.cancel reason).2.status = ReservationStatus.cancelled ∧
      (r.cancel reason).2.pendingEvents = r.pendingEvents ++
        [DomainEvent.reservationCancelled r.id reason r.dateRange r.roomBookings]) ∧
    (∀ reason2, (r.cancel reason).1 = none →
      ((r.cancel reason).2.cancel reason2).1.isSome = true ∧
      ((r.cancel reason).2.cancel reason2).2 = (r.cancel reason).2) := by
  cases hst : r.status <;>
    simp [ReservationAggregate.cancel, ReservationStatus.isCancelled,
      ReservationStatus.isCompleted, hst]

/-- C2 witness: cancelling the fresh sample reservation succeeds, and a
second cancel attempt on the result fails. -/
theorem cancel_spec_witness :
    (sampleReservation.cancel "Guest requested cancellation").1 = none ∧
    ((sampleReservation.cancel "Guest requested cancellation").2.cancel "again").1.isSome = true :=
  ⟨by decide,
   ((cancel_spec "Guest requested cancellation" sampleReservation).2.2.2 "again" (by decide)).1⟩

/-- C6: `validateBooking` evaluates all three configured policies
without short-circuiting — its result is valid exactly when every
policy result is valid, and when any fail it returns a failed
PolicyValidationResult whose reason is every failing policy's reason,
in policy order, joined by "; "; when all pass it returns the
successful result. -/
theorem validateBooking_spec (svc : BookingPolicyService) (dr : DateRange)
    (rb : List RoomBooking) (gi : GuestInfo) :
    ((svc.validateBooking dr rb gi).isValid = true ↔
      ∀ p ∈ svc.policyResults dr rb, p.isValid = true) ∧
    ((∃ p ∈ svc.policyResults dr rb, !p.isValid) →
      svc.validateBooking dr rb gi = PolicyValidationResult.failed
        (String.intercalate "; "
          (((svc.policyResults dr rb).filter fun p => !p.isValid).map
            PolicyValidationResult.reason))) ∧
    ((∀ p ∈ svc.policyResults dr rb, p.isValid = true) →
      svc.validateBooking dr rb gi = PolicyValidationResult.success) := by
  cases h1 : (svc.minimumStayPolicy dr rb).isValid <;>
  cases h2 : (svc.advanceBookingPolicy dr).isValid <;>
  cases h3 : (svc.blackoutDatePolicy dr).isValid <;>
    simp [BookingPolicyService.validateBooking, BookingPolicyService.policyResults,
      PolicyValidationResult.success, PolicyValidationResult.failed, h1, h2, h3]

/-- C6 witness: on a concrete service whose minimum-stay and
blackout-date policies fail while the advance-booking policy passes,
`validateBooking` reports both failure reasons joined by "; " in policy
order. -/
theorem validateBooking_spec_witness :
    samplePolicyService.validateBooking sampleDateRange sampleBookings sampleGuest =
      PolicyValidationResult.failed
        "Minimum stay of 2 nights required; Requested dates fall on blackout dates" := by
  have h :=
    (validateBooking_spec samplePolicyService sampleDateRange sampleBookings sampleGuest).2.1
      ⟨samplePolicyService.minimumStayPolicy sampleDateRange sampleBookings,
       List.mem_cons_self _ _, by decide⟩
  exact h.trans (by decide)

/-- Helper: when no requested room has zero quantity, the room-booking
construction succeeds. -/
theorem buildRoomBookings_ok_of_no_zero :
    ∀ l : List RoomRequest, (∀ rr ∈ l, rr.quantity ≠ 0) →
      ∃ rbs, buildRoomBookings l = Except.ok rbs := by
  intro l
  induction l with
  | nil => exact fun _ => ⟨[], rfl⟩
  | cons hd rest ih =>
    intro h
    have hq : hd.quantity ≠ 0 := h hd (List.mem_cons_self _ _)
    obtain ⟨rbs, hrest⟩ := ih fun x hx => h x (List.mem_cons_of_mem _ hx)
    exact ⟨⟨hd.roomTypeId, hd.quantity, hd.specialRequests⟩ :: rbs,
      by simp [buildRoomBookings, mkRoomBooking, hq, hrest]⟩

/-- Helper: a zero-quantity room request makes the room-booking
construction fail with the modelled ValidationError. -/
theorem buildRoomBookings_error_of_zero :
    ∀ l : List RoomRequest, (∃ rr ∈ l, rr.quantity = 0) →
      buildRoomBookings l =
        Except.error (DomainError.validationError "Room booking quantity must be positive") := by
  intro l
  induction l with
  | nil => rintro ⟨rr, hmem, -⟩; cases hmem
  | cons hd rest ih =>
    rintro ⟨rr, hmem, hq⟩
    rcases List.mem_cons.mp hmem with heq | hmem'
    · subst heq
      simp [buildRoomBookings, mkRoomBooking, hq]
    · by_cases hhd : hd.quantity = 0
      · simp [buildRoomBookings, mkRoomBooking, hhd]
      · have htail := ih ⟨rr, hmem', hq⟩
        simp [buildRoomBookings, mkRoomBooking, hhd, htail]

/-- C3: `create` always constructs a reservation in Pending status with
totalAmount `Money.zero()` and exactly one ReservationCreated event;
and, for a request whose guest and date fields are present, the use
case's input preparation fails with a ValidationError exactly when the
room-request list is empty or some requested room has zero quantity
(the latter check is spec-modelled in `mkRoomBooking`, the RoomBooking
constructor not present under src/). -/
theorem create_spec (freshId : String) (g : GuestInfo) (dr : DateRange)
    (rbs : List RoomBooking) (request : CreateReservationRequest)
    (hg : request.guestId ≠ "") (hn : request.guestName ≠ "")
    (he : request.guestEmail ≠ "") (hci : request.checkInDate ≠ "")
    (hco : request.checkOutDate ≠ "") :
    ((ReservationAggregate.create freshId g dr rbs).status = ReservationStatus.pending ∧
     (ReservationAggregate.create freshId g dr rbs).totalAmount = Money.zero ∧
     (ReservationAggregate.create freshId g dr rbs).pendingEvents =
       [DomainEvent.reservationCreated freshId g.guestId dr rbs]) ∧
    ((∃ msg, prepareReservationInputs request =
        Except.error (DomainError.validationError msg)) ↔
      (request.roomRequests = [] ∨ ∃ rr ∈ request.roomRequests, rr.quantity = 0)) := by
  refine ⟨⟨rfl, rfl, rfl⟩, ?_⟩
  unfold prepareReservationInputs validateRequest
  rw [if_neg (by simp [hg, hn, he]), if_neg (by simp [hci, hco])]
  by_cases hempty : request.roomRequests = []
  · rw [if_pos hempty]
    simp [hempty]
  · rw [if_neg hempty]
    simp only [hempty, false_or]
    constructor
    · rintro ⟨msg, hmsg⟩
      by_contra hno
      push_neg at hno
      obtain ⟨rbs', hok⟩ := buildRoomBookings_ok_of_no_zero _ hno
      rw [hok] at hmsg
      cases hmsg
    · rintro ⟨rr, hmem, hq⟩
      exact ⟨_, buildRoomBookings_error_of_zero _ ⟨rr, hmem, hq⟩⟩

/-- C3 witness: a concrete create yields a Pending reservation, and a
concrete request with a zero-quantity room request is rejected with a
ValidationError. -/
theorem create_spec_witness :
    (ReservationAggregate.create "res-1" sampleGuest sampleDateRange sampleBookings).status =
      ReservationStatus.pending ∧
    (∃ msg, prepareReservationInputs sampleZeroQuantityRequest =
      Except.error (DomainError.validationError msg)) := by
  have h := create_spec "res-1" sampleGuest sampleDateRange sampleBookings
    sampleZeroQuantityRequest (by decide) (by decide) (by decide) (by decide) (by decide)
  exact ⟨h.1.1, h.2.mpr (Or.inr ⟨⟨"deluxe-king", 0, none⟩, by decide, rfl⟩)⟩

/-- Helper: the optimistic-update WHERE condition, spelled out. -/
theorem updateMatches_iff (m row : ReservationModel) :
    updateMatches m row = true ↔ (row.id = m.id ∧ row.version = m.version - 1) := by
  simp [updateMatches]

/-- Helper: the model's id is the entity's id. -/
theorem entityToModel_id (res : GoReservation) : (entityToModel res).id = res.id := rfl

/-- Helper: the model's version is the entity's version. -/
theorem entityToModel_version (res : GoReservation) :
    (entityToModel res).version = res.version := rfl

/-- Helper: with no stored row matching the loaded version, `Update`
raises the concurrency error and leaves the table untouched. -/
theorem update_eq_fail (db : List ReservationModel) (res : GoReservation)
    (h : ∀ row ∈ db, ¬(updateMatches (entityToModel res) row = true)) :
    PostgresReservationRepository.update db res =
      (some (DomainError.concurrencyConflict "reservation was modified by another process"),
       db) := by
  unfold PostgresReservationRepository.update
  rw [if_pos]
  rw [List.length_eq_zero]
  exact List.filter_eq_nil_iff.mpr h

/-- Helper: with a stored row matching the loaded version, `Update`
succeeds and overwrites every matching row with the model. -/
theorem update_eq_ok (db : List ReservationModel) (res : GoReservation)
    (h : ∃ row ∈ db, updateMatches (entityToModel res) row = true) :
    PostgresReservationRepository.update db res =
      (none, db.map fun row =>
        if updateMatches (entityToModel res) row then entityToModel res else row) := by
  unfold PostgresReservationRepository.update
  rw [if_neg]
  intro hlen
  obtain ⟨row, hmem, hm⟩ := h
  exact List.filter_eq_nil_iff.mp (List.length_eq_zero.mp hlen) row hmem hm

/-- C4: the repository's `Update` is conditioned on the version the
aggregate was loaded with — it fails with ConcurrencyConflict exactly
when no stored row carries the aggregate's id at version one below the
model's, on failure the stored state is not overwritten, every
successful write replaces the matched row by the model whose version is
the old stored version plus 1, and of two saves prepared (via
`IncrementVersion`) from the same loaded version exactly one succeeds
while the second raises the concurrency conflict. -/
theorem update_spec (db : List ReservationModel) (res : GoReservation) :
    ((PostgresReservationRepository.update db res).1.isSome = true ↔
      ¬∃ row ∈ db, row.id = res.id ∧ row.version = res.version - 1) ∧
    ((PostgresReservationRepository.update db res).1.isSome = true →
      (PostgresReservationRepository.update db res).1 =
        some (DomainError.concurrencyConflict "reservation was modified by another process") ∧
      (PostgresReservationRepository.update db res).2 = db) ∧
    ((PostgresReservationRepository.update db res).1 = none →
      (PostgresReservationRepository.update db res).2 =
        (db.map fun row =>
          if updateMatches (entityToModel res) row then entityToModel res else row) ∧
      ∀ row ∈ db, updateMatches (entityToModel res) row = true →
        (entityToModel res).version = row.version + 1) ∧
    (∀ now1 now2 : Int, ∀ res2 : GoReservation,
      res2.id = res.id → res2.version = res.version →
      (∃ row ∈ db, row.id = res.id ∧ row.version = res.version) →
      ((PostgresReservationRepository.update db (res.incrementVersion now1)).1 = none ∧
       (PostgresReservationRepository.update
          (PostgresReservationRepository.update db (res.incrementVersion now1)).2
          (res2.incrementVersion now2)).1.isSome = true)) := by
  have hiff : ∀ row ∈ db, (updateMatches (entityToModel res) row = true ↔
      (row.id = res.id ∧ row.version = res.version - 1)) := by
    intro row _
    rw [updateMatches_iff, entityToModel_id, entityToModel_version]
  refine ⟨?_, ?_, ?_, ?_⟩
  · by_cases hex : ∃ row ∈ db, updateMatches (entityToModel res) row = true
    · rw [update_eq_ok db res hex]
      obtain ⟨row, hmem, hm⟩ := hex
      simp only [Option.isSome_none, Bool.false_eq_true, false_iff, not_not]
      exact ⟨row, hmem, (hiff row hmem).mp hm⟩
    · rw [update_eq_fail db res fun row hmem hm => hex ⟨row, hmem, hm⟩]
      simp only [Option.isSome_some, true_iff]
      rintro ⟨row, hmem, hprop⟩
      exact hex ⟨row, hmem, (hiff row hmem).mpr hprop⟩
  · by_cases hex : ∃ row ∈ db, updateMatches (entityToModel res) row = true
    · rw [update_eq_ok db res hex]
      simp
    · rw [update_eq_fail db res fun row hmem hm => hex ⟨row, hmem, hm⟩]
      exact fun _ => ⟨rfl, rfl⟩
  · by_cases hex : ∃ row ∈ db, updateMatches (entityToModel res) row = true
    · rw [update_eq_ok db res hex]
      intro _
      refine ⟨rfl, ?_⟩
      intro row hmem hm
      have hver := ((hiff row hmem).mp hm).2
      rw [entityToModel_version]
      omega
    · rw [update_eq_fail db res fun row hmem hm => hex ⟨row, hmem, hm⟩]
      simp
  · rintro now1 now2 res2 hid hver ⟨row, hmem, hrid, hrver⟩
    have h1 : ∃ row' ∈ db,
        updateMatches (entityToModel (res.incrementVersion now1)) row' = true := by
      refine ⟨row, hmem, ?_⟩
      rw [updateMatches_iff, entityToModel_id, entityToModel_version]
      refine ⟨hrid, ?_⟩
      simp only [GoReservation.incrementVersion]
      omega
    rw [update_eq_ok db _ h1]
    refine ⟨rfl, ?_⟩
    rw [update_eq_fail]
    · simp
    · intro row' hmem'
      rw [updateMatches_iff, entityToModel_id, entityToModel_version]
      obtain ⟨x, hx, hxeq⟩ := List.mem_map.mp hmem'
      rintro ⟨hrid', hrver'⟩
      by_cases hxm : updateMatches (entityToModel (res.incrementVersion now1)) x = true
      · rw [if_pos hxm] at hxeq
        subst hxeq
        rw [entityToModel_version] at hrver'
        simp only [GoReservation.incrementVersion] at hrver'
        omega
      · rw [if_neg hxm] at hxeq
        subst hxeq
        apply hxm
        rw [updateMatches_iff, entityToModel_id, entityToModel_version]
        refine ⟨?_, ?_⟩
        · rw [hrid']
          simp only [GoReservation.incrementVersion]
          rw [hid]
        · simp only [GoReservation.incrementVersion] at hrver' ⊢
          omega

/-- C4 witness: saving the sample aggregate (loaded at version 3, then
incremented) against its stored row succeeds; a second save prepared
from the same loaded version then raises the concurrency conflict. -/
theorem update_spec_witness :
    (PostgresReservationRepository.update sampleReservationDb
      (sampleGoReservation.incrementVersion 200)).1 = none ∧
    (PostgresReservationRepository.update
      (PostgresReservationRepository.update sampleReservationDb
        (sampleGoReservation.incrementVersion 200)).2
      (sampleGoReservation.incrementVersion 300)).1.isSome = true :=
  (update_spec sampleReservationDb sampleGoReservation).2.2.2 200 300
    sampleGoReservation rfl rfl ⟨sampleStoredRow, List.mem_singleton.mpr rfl, rfl, rfl⟩

/-- Helper: `applyOutcome` acts row-wise. -/
theorem applyOutcome_eq_map (now : Int) (deliver : OutboxEvent → Bool)
    (db : List OutboxEvent) (e : OutboxEvent) :
    applyOutcome now deliver db e = db.map (applyOutcomeRow now deliver e) := by
  unfold applyOutcome applyOutcomeRow
  cases hd : deliver e <;> simp [hd]

/-- Helper: the per-row dispatch effect never changes a row's id. -/
theorem applyOutcomeRow_id (now : Int) (deliver : OutboxEvent → Bool)
    (e row : OutboxEvent) : (applyOutcomeRow now deliver e row).id = row.id := by
  unfold applyOutcomeRow
  split
  · split <;> rfl
  · rfl

/-- Helper: every batched outbox row is an unprocessed row of the table
with a retry count below the ceiling of 3. -/
theorem mem_pollBatch (db : List OutboxEvent) :
    ∀ e ∈ pollBatch db, e ∈ db ∧ e.processedAt = none ∧ e.retries < 3 := by
  intro e he
  have h1 : e ∈ (db.filter pollFilter).insertionSort
      (fun a b => a.createdAt ≤ b.createdAt) := List.take_subset _ _ he
  have h2 : e ∈ db.filter pollFilter := (List.perm_insertionSort _ _).mem_iff.mp h1
  have h3 := List.mem_filter.mp h2
  have h4 := h3.2
  simp only [pollFilter, Bool.and_eq_true, Option.isNone_iff_eq_none,
    decide_eq_true_eq] at h4
  exact ⟨h3.1, h4.1, h4.2⟩

/-- Helper: closed form of the dispatch fold — when the table's ids are
distinct and the batch consists of table rows with distinct ids, each
batched row is marked processed on success or has its retry count
bumped on failure, and every other row is untouched. -/
theorem foldl_applyOutcome (now : Int) (deliver : OutboxEvent → Bool) :
    ∀ batch db : List OutboxEvent,
      (batch.map OutboxEvent.id).Nodup →
      (db.map OutboxEvent.id).Nodup →
      (∀ e ∈ batch, e ∈ db) →
      batch.foldl (applyOutcome now deliver) db =
        db.map fun x =>
          if x ∈ batch then
            (if deliver x then { x with processedAt := some now }
             else { x with retries := x.retries + 1 })
          else x := by
  intro batch
  induction batch with
  | nil =>
    intro db _ _ _
    simp
  | cons e rest ih =>
    intro db hbn hdbn hsub
    have hein : e ∈ db := hsub e (List.mem_cons_self _ _)
    rw [List.map_cons] at hbn
    have hbn' := List.nodup_cons.mp hbn
    have heid : e.id ∉ rest.map OutboxEvent.id := hbn'.1
    have hrestn : (rest.map OutboxEvent.id).Nodup := hbn'.2
    rw [List.foldl_cons, applyOutcome_eq_map]
    have hdbn' : ((db.map (applyOutcomeRow now deliver e)).map OutboxEvent.id).Nodup := by
      rw [List.map_map]
      have hcomp : (OutboxEvent.id ∘ applyOutcomeRow now deliver e) = OutboxEvent.id := by
        funext row
        exact applyOutcomeRow_id now deliver e row
      rw [hcomp]
      exact hdbn
    have hsub' : ∀ x ∈ rest, x ∈ db.map (applyOutcomeRow now deliver e) := by
      intro x hx
      have hxdb : x ∈ db := hsub x (List.mem_cons_of_mem _ hx)
      have hxid : x.id ≠ e.id := fun h => heid (h ▸ List.mem_map_of_mem _ hx)
      have hfix : applyOutcomeRow now deliver e x = x := by
        simp [applyOutcomeRow, hxid]
      exact hfix ▸ List.mem_map_of_mem _ hxdb
    rw [ih _ hrestn hdbn' hsub', List.map_map]
    apply List.map_congr_left
    intro x hxdb
    simp only [Function.comp_apply]
    by_cases hid : x.id = e.id
    · have hxe : x = e := List.inj_on_of_nodup_map hdbn hxdb hein hid
      subst hxe
      have hf1x : applyOutcomeRow now deliver x x =
          (if deliver x then { x with processedAt := some now }
           else { x with retries := x.retries + 1 }) := by
        unfold applyOutcomeRow
        rw [if_pos (by simp)]
        cases hd : deliver x <;> simp [hd]
      rw [hf1x]
      have hupd_id : (if deliver x then { x with processedAt := some now }
          else { x with retries := x.retries + 1 }).id = x.id := by
        cases deliver x <;> rfl
      have hnot : (if deliver x then { x with processedAt := some now }
          else { x with retries := x.retries + 1 }) ∉ rest := by
        intro hmem
        exact heid (hupd_id ▸ List.mem_map_of_mem OutboxEvent.id hmem)
      rw [if_neg hnot, if_pos (List.mem_cons_self _ _)]
    · have hxe : x ≠ e := fun h => hid (h ▸ rfl)
      have hf1x : applyOutcomeRow now deliver e x = x := by
        simp [applyOutcomeRow, hid]
      rw [hf1x]
      by_cases hr : x ∈ rest
      · rw [if_pos hr, if_pos (List.mem_cons_of_mem _ hr)]
      · rw [if_neg hr, if_neg fun h => (List.mem_cons.mp h).elim hxe hr]

/-- C5 (amended): the dispatcher polls a batch of unprocessed rows below
the retry ceiling of 3, ordered by creation time and bounded by 100;
each batched row is marked processed (processedAt set) exactly when its
delivery fully succeeds, and on a delivery failure only its retryCount
is incremented (it stays unprocessed); every other row — in particular
every poisoned row that has reached the ceiling — is left completely
untouched and excluded from polling, receiving no further delivery
attempt and no surfacing. -/
theorem processOutboxEvents_spec (now : Int) (deliver : OutboxEvent → Bool)
    (db : List OutboxEvent) (hnodup : (db.map OutboxEvent.id).Nodup) :
    (∀ e ∈ pollBatch db, e ∈ db ∧ e.processedAt = none ∧ e.retries < 3) ∧
    List.Sorted (fun a b : OutboxEvent => a.createdAt ≤ b.createdAt) (pollBatch db) ∧
    (pollBatch db).length ≤ 100 ∧
    processOutboxEvents now deliver db = (db.map fun x =>
      if x ∈ pollBatch db then
        (if deliver x then { x with processedAt := some now }
         else { x with retries := x.retries + 1 })
      else x) ∧
    (∀ x ∈ db, 3 ≤ x.retries → x ∉ pollBatch db) := by
  refine ⟨mem_pollBatch db, ?_, ?_, ?_, ?_⟩
  · haveI : IsTotal OutboxEvent (fun a b => a.createdAt ≤ b.createdAt) :=
      ⟨fun a b => le_total _ _⟩
    haveI : IsTrans OutboxEvent (fun a b => a.createdAt ≤ b.createdAt) :=
      ⟨fun _ _ _ h1 h2 => le_trans h1 h2⟩
    exact List.Pairwise.sublist (List.take_sublist _ _) (List.sorted_insertionSort _ _)
  · exact List.length_take_le _ _
  · apply foldl_applyOutcome
    · have h1 : ((db.filter pollFilter).map OutboxEvent.id).Nodup :=
        List.Nodup.sublist (List.Sublist.map _ (List.filter_sublist _)) hnodup
      have h2 : (((db.filter pollFilter).insertionSort
          (fun a b => a.createdAt ≤ b.createdAt)).map OutboxEvent.id).Nodup :=
        (((List.perm_insertionSort _ _).map OutboxEvent.id).nodup_iff).mpr h1
      exact List.Nodup.sublist (List.Sublist.map _ (List.take_sublist _ _)) h2
    · exact hnodup
    · exact fun e he => (mem_pollBatch db e he).1
  · intro x hx h3 hmem
    have := (mem_pollBatch db x hmem).2.2
    omega

/-- C5 witness: on a concrete two-row table (one fresh row, one
poisoned row) with an always-failing delivery, the fresh row's retry
count is bumped to 1 while the poisoned row is untouched. -/
theorem processOutboxEvents_spec_witness :
    processOutboxEvents 10 (fun _ => false) sampleOutboxDb =
      [⟨"evt-2", "ReservationConfirmed", "data-2", "res-7", 9, none, 1⟩, samplePoisonedRow] := by
  have h := (processOutboxEvents_spec 10 (fun _ => false) sampleOutboxDb (by decide)).2.2.2.1
  exact h.trans (by decide)

/-- C5 counterexample: a row that has reached the retry ceiling is not
surfaced in any way — on a table holding only such a row the dispatcher
polls nothing and returns the table verbatim, even though delivery
would succeed, so the row is abandoned silently (it is merely never
deleted). -/
theorem outbox_poisoned_counterexample :
    pollBatch samplePoisonedDb = [] ∧
    processOutboxEvents 10 (fun _ => true) samplePoisonedDb = samplePoisonedDb := by
  constructor <;> rfl

/-- Helper: a day's rate keeps the base rate's currency. -/
theorem calculateDailyRate_currency (cal : Calendar) (baseRate : GoMoney)
    (d : Int) (gc : Nat) :
    (calculateDailyRate cal baseRate d gc).currency = baseRate.currency := by
  unfold calculateDailyRate
  split <;> split <;> split <;> simp [GoMoney.multiply]

/-- Helper: the unfolding equation of the daily loop for a non-empty
remaining range. -/
theorem sumDailyRates_succ (cal : Calendar) (b : GoMoney) (gc n : Nat)
    (d : Int) (acc : GoMoney) :
    sumDailyRates cal b gc (n + 1) d acc =
      (match acc.add (calculateDailyRate cal b d gc) with
       | Except.error e => Except.error ("failed to add daily rate: " ++ e)
       | Except.ok acc' => sumDailyRates cal b gc n (d + 1) acc') := by
  rw [sumDailyRates]

/-- C7 (code bug): on a concrete 3-night June booking of the
deluxe-king room (base rate 100.00 USD, 2 guests), `CalculateRate`
returns a currency-mismatch error — its accumulator starts from the Go
zero value `Money{}` whose currency is empty, so the very first `Add`
fails — whereas the spec's reference computation yields the total
453.60 = 2268/5 (3 days × 100 × 1.5 seasonal × 0.9 Monday, plus 12%
tax on the sum). -/
theorem rateCalculator_code_bug :
    calculateRate sampleCalendar sampleBaseRates "deluxe-king" ⟨0, 3⟩ 2 =
      Except.error "failed to add daily rate: cannot add different currencies:  and USD" ∧
    specTotal sampleCalendar 100 2 0 3 = 2268 / 5 := by
  constructor
  · have hb : getBaseRate sampleBaseRates "deluxe-king" = GoMoney.newMoney 10000 "USD" := rfl
    have hbne : ¬((getBaseRate sampleBaseRates "deluxe-king").toFloat = 0) := by
      rw [hb]
      norm_num [GoMoney.newMoney, GoMoney.toFloat]
    have hdcur : (calculateDailyRate sampleCalendar
        (getBaseRate sampleBaseRates "deluxe-king") 0 2).currency = "USD" := by
      rw [calculateDailyRate_currency, hb]
      rfl
    have hadd : GoMoney.empty.add (calculateDailyRate sampleCalendar
        (getBaseRate sampleBaseRates "deluxe-king") 0 2) =
        Except.error "cannot add different currencies:  and USD" := by
      unfold GoMoney.add
      rw [if_pos (by rw [hdcur]; exact fun h => absurd h (by decide))]
      rw [hdcur]
      rfl
    unfold calculateRate
    rw [if_neg hbne]
    rw [show (((⟨0, 3⟩ : GoDateRange).checkOut - (⟨0, 3⟩ : GoDateRange).checkIn)).toNat
        = 2 + 1 from rfl]
    rw [sumDailyRates_succ, hadd]
    rfl
  · simp only [specTotal]
    rw [show ((3 : Int) - 0).toNat = 3 from rfl]
    norm_num [specDailyAmount, specSeasonalMultiplier,
      specDayOfWeekMultiplier, specGuestFactor, sampleCalendar, List.range_succ]

/-- Supporting fact: the accumulator slip is universal — for every
non-empty date range, whenever the base rate is non-zero and carries a
non-empty currency, `CalculateRate` fails on the first daily addition. -/
theorem calculateRate_always_fails (cal : Calendar) (table : List (String × GoMoney))
    (rt : String) (dr : GoDateRange) (gc : Nat)
    (hrange : dr.checkIn < dr.checkOut)
    (hbase : (getBaseRate table rt).toFloat ≠ 0)
    (hcur : (getBaseRate table rt).currency ≠ "") :
    calculateRate cal table rt dr gc =
      Except.error ("failed to add daily rate: "
        ++ ("cannot add different currencies: " ++ GoMoney.empty.currency ++ " and "
            ++ (calculateDailyRate cal (getBaseRate table rt) dr.checkIn gc).currency)) := by
  obtain ⟨n, hn⟩ : ∃ n, (dr.checkOut - dr.checkIn).toNat = n + 1 :=
    ⟨(dr.checkOut - dr.checkIn).toNat - 1, by omega⟩
  have hdcur : (calculateDailyRate cal (getBaseRate table rt) dr.checkIn gc).currency =
      (getBaseRate table rt).currency := calculateDailyRate_currency ..
  have hadd : GoMoney.empty.add
      (calculateDailyRate cal (getBaseRate table rt) dr.checkIn gc) =
      Except.error ("cannot add different currencies: " ++ GoMoney.empty.currency
        ++ " and "
        ++ (calculateDailyRate cal (getBaseRate table rt) dr.checkIn gc).currency) := by
    unfold GoMoney.add
    rw [if_pos (by rw [hdcur]; exact fun h => hcur h.symm)]
  unfold calculateRate
  rw [if_neg hbase, hn, sumDailyRates_succ, hadd]

/-- Helper: under the low/medium/high banding, the source's
season-lookup produces exactly the spec's seasonal multiplier. -/
theorem seasonal_lookup_eq_spec (month : Nat) :
    seasonalMultipliers.lookup (getSeason month) =
      some (specSeasonalMultiplier month) := by
  unfold getSeason specSeasonalMultiplier
  split_ifs <;> rfl

/-- Helper: for a genuine weekday (0-6), the source's weekday lookup
produces exactly the spec's day-of-week multiplier. -/
theorem dow_lookup_eq_spec (w : Nat) (hw : w < 7) :
    dayOfWeekMultipliers.lookup w = some (specDayOfWeekMultiplier w) := by
  interval_cases w <;> rfl

/-- Helper: a single day's rate equals the spec's daily amount in the
base rate's currency. -/
theorem calculateDailyRate_eq_spec (cal : Calendar) (baseRate : GoMoney)
    (d : Int) (gc : Nat) (hweek : cal.weekday d < 7) :
    calculateDailyRate cal baseRate d gc =
      ⟨specDailyAmount cal baseRate.amount gc d, baseRate.currency⟩ := by
  unfold calculateDailyRate
  rw [seasonal_lookup_eq_spec, dow_lookup_eq_spec _ hweek]
  unfold specDailyAmount specGuestFactor GoMoney.multiply
  by_cases hg : gc > 2
  · rw [if_pos hg, if_pos hg]
  · rw [if_neg hg, if_neg hg]
    exact congrArg₂ GoMoney.mk (by ring) rfl

/-- Helper: the daily summation loop, started from an accumulator in
the base rate's own currency, computes the running sum of the spec's
daily amounts. -/
theorem sumDailyRates_repaired (cal : Calendar) (baseRate : GoMoney) (gc : Nat)
    (hweek : ∀ d, cal.weekday d < 7) :
    ∀ (n : Nat) (d : Int) (acc : ℚ),
      sumDailyRates cal baseRate gc n d ⟨acc, baseRate.currency⟩ =
        Except.ok ⟨acc + (((List.range n).map
          fun i : Nat => specDailyAmount cal baseRate.amount gc (d + (i : Int))).sum),
          baseRate.currency⟩ := by
  intro n
  induction n with
  | zero =>
    intro d acc
    simp [sumDailyRates]
  | succ n ih =>
    intro d acc
    rw [sumDailyRates]
    rw [calculateDailyRate_eq_spec cal baseRate d gc (hweek d)]
    unfold GoMoney.add
    rw [if_neg (by simp)]
    dsimp only
    rw [ih (d + 1) (acc + specDailyAmount cal baseRate.amount gc d)]
    refine congrArg Except.ok (congrArg₂ GoMoney.mk ?_ rfl)
    rw [List.range_succ_eq_map, List.map_cons, List.sum_cons, List.map_map]
    have hshift : ((List.range n).map
        ((fun i : Nat => specDailyAmount cal baseRate.amount gc (d + (i : Int))) ∘ Nat.succ)).sum =
        ((List.range n).map
          fun i : Nat => specDailyAmount cal baseRate.amount gc (d + 1 + (i : Int))).sum := by
      congr 1
      apply List.map_congr_left
      intro i _
      simp only [Function.comp_apply]
      congr 1
      push_cast
      ring
    rw [hshift]
    simp only [Nat.cast_zero, add_zero]
    ring

/-- Supporting fact: with the accumulator slip repaired (summation
started from a zero amount in the base rate's currency), the source's
rate algorithm computes exactly the spec's reference total — per-day
seasonal multiplier, then day-of-week multiplier, then extra-guest
surcharge, summed over [checkIn, checkOut) with a flat 12% tax on the
sum — in the base rate's currency. -/
theorem calculateRateRepaired_eq_spec (cal : Calendar)
    (table : List (String × GoMoney)) (rt : String) (dr : GoDateRange) (gc : Nat)
    (hweek : ∀ d, cal.weekday d < 7)
    (hbase : (getBaseRate table rt).toFloat ≠ 0) :
    calculateRateRepaired cal table rt dr gc =
      Except.ok ⟨specTotal cal (getBaseRate table rt).amount gc dr.checkIn dr.checkOut,
        (getBaseRate table rt).currency⟩ := by
  unfold calculateRateRepaired
  rw [if_neg hbase]
  rw [sumDailyRates_repaired cal _ gc hweek _ _ 0]
  unfold applyTaxes GoMoney.multiply specTotal
  simp only [zero_add]

end HotelBooking
